import Mathlib

/-!
Verification of the attribute-binding core of the `trol` object-mapping layer
(`trol/property.py`), shallowly embedded in Lean 4.

The embedding follows the source closely:
  * A Python value held in the local cache is either the distinguished
    `Property.null` sentinel or an ordinary Python value; an ordinary Python
    value is either `None` or a real object.  `LocalVal` captures the former
    distinction and `PyVal` the latter.
  * The per-owner mangled slot (`_trol_property_<name>`) is modelled as the
    `slot` field of `Owner`; `Option.none` there corresponds to the attribute
    being absent on the owner (the `AttributeError` branch of `value`).
  * The Redis client is modelled as a response oracle `Store`; every
    operation additionally returns the list of remote calls it issued, so
    that claims about which remote operations happen are statable.
-/

namespace Trol

/-- An ordinary Python value: either `None` or a real object of type `α`. -/
inductive PyVal (α : Type) where
  | none : PyVal α
  | obj : α → PyVal α
deriving DecidableEq, Repr

/-- A value held in an owner's local cache slot: the `Property.null` sentinel
(`self.null` in the source) or an ordinary Python value. -/
inductive LocalVal (α : Type) where
  | null : LocalVal α
  | py : PyVal α → LocalVal α
deriving DecidableEq, Repr

/-- `value is self.null` from the source. -/
def LocalVal.isNull {α : Type} : LocalVal α → Bool
  | LocalVal.null => true
  | LocalVal.py _ => false

/-- The holder object of a property, as the binding sees it: its `key`
attribute (nullable), optional `autocommit` / `alwaysfetch` attributes
(`Option.none` = attribute absent, so `getattr` falls back to its default),
and the mangled cache slot (`Option.none` = attribute absent, the
`AttributeError` case of `Property.value`). -/
structure Owner (α : Type) where
  key : Option String
  autocommit : Option Bool
  alwaysfetch : Option Bool
  slot : Option (LocalVal α)
deriving DecidableEq, Repr

/-- The remote store client (`obj.redis`), modelled as a response oracle:
`getResp` is what `get` answers for a key (`Option.none` = key absent),
`setResp` the success indication of `set`, `delResp` that of `delete`. -/
structure Store (β : Type) where
  getResp : String → Option β
  setResp : String → β → Bool
  delResp : String → Bool

/-- A record of one remote call issued to the store. -/
inductive StoreCall (β : Type) where
  | get : String → StoreCall β
  | set : String → β → StoreCall β
  | del : String → StoreCall β
deriving DecidableEq, Repr

/-- The binding object (`trol.Property`): its name, the `autocommit` and
`alwaysfetch` flags (`Option.none` = the Python `None` default), and the
injected serializer/deserializer pair. -/
structure Property (α β : Type) where
  name : String
  autocommit : Option Bool
  alwaysfetch : Option Bool
  serialize : PyVal α → β
  deserialize : β → PyVal α

/-- `Property.mangle`: `"_trol_property_{}".format(name)`. -/
def Property.mangle (name : String) : String :=
  "_trol_property_" ++ name

/-- `Property.key`: `"{}:{}".format(obj.key, self.name)` when `obj.key` is
not `None`, else `self.name`. -/
def Property.key {α β : Type} (p : Property α β) (o : Owner α) : String :=
  match o.key with
  | some k => k ++ ":" ++ p.name
  | none => p.name

/-- `Property.set`: `setattr(obj, self.mangle(self.name), value)`. -/
def Property.set {α β : Type} (p : Property α β) (o : Owner α) (v : LocalVal α) : Owner α :=
  { o with slot := some v }

/-- `Property.value`: return the mangled slot, materializing `null` into it
first when the attribute is absent.  Returns the value together with the
(possibly updated) owner. -/
def Property.value {α β : Type} (p : Property α β) (o : Owner α) : LocalVal α × Owner α :=
  match o.slot with
  | some v => (v, o)
  | none => (LocalVal.null, p.set o LocalVal.null)

/-- `Property.fetch`: `obj.redis.get(self.key(obj))`; deserialize a present
response, store `null` for an absent one, always write the result into the
local cache and return it.  Also returns the issued remote calls. -/
def Property.fetch {α β : Type} (p : Property α β) (st : Store β) (o : Owner α) :
    LocalVal α × Owner α × List (StoreCall β) :=
  let k := p.key o
  let v : LocalVal α :=
    match st.getResp k with
    | some b => LocalVal.py (p.deserialize b)
    | none => LocalVal.null
  (v, p.set o v, [StoreCall.get k])

/-- `Property.commit`: nothing to write when the local value is `null`
(report success); otherwise `obj.redis.set(self.key(obj), self.serialize(value))`. -/
def Property.commit {α β : Type} (p : Property α β) (st : Store β) (o : Owner α) :
    Bool × Owner α × List (StoreCall β) :=
  let vo := p.value o
  match vo.1 with
  | LocalVal.null => (true, vo.2, [])
  | LocalVal.py pv =>
      let k := p.key vo.2
      let b := p.serialize pv
      (st.setResp k b, vo.2, [StoreCall.set k b])

/-- `Property.delete`: `ok = obj.redis.delete(self.key(obj))`; on success set
the local cache to Python `None`, on failure leave the owner untouched. -/
def Property.delete {α β : Type} (p : Property α β) (st : Store β) (o : Owner α) :
    Bool × Owner α × List (StoreCall β) :=
  let k := p.key o
  let ok := st.delResp k
  if ok then (ok, p.set o (LocalVal.py PyVal.none), [StoreCall.del k])
  else (ok, o, [StoreCall.del k])

/-- The `alwaysfetch` part of the guard on line 81 of the source:
`self.alwaysfetch or (self.alwaysfetch is None and getattr(obj, 'alwaysfetch', False))`. -/
def Property.fetchCond {α β : Type} (p : Property α β) (o : Owner α) : Bool :=
  p.alwaysfetch.getD false || (p.alwaysfetch.isNone && o.alwaysfetch.getD false)

/-- The guard on line 92 of the source:
`self.autocommit or (self.autocommit is None and getattr(obj, 'autocommit', True))`. -/
def Property.commitCond {α β : Type} (p : Property α β) (o : Owner α) : Bool :=
  p.autocommit.getD false || (p.autocommit.isNone && o.autocommit.getD true)

/-- `Property.__get__` (for a bound instance): read the local value, fetch
when it is `null` or the alwaysfetch guard holds, raise
`RedisKeyError(self.key(obj))` when the value is still `null`, else return it.
`Except.error` carries the key of the raised error. -/
def Property.getAccess {α β : Type} (p : Property α β) (st : Store β) (o : Owner α) :
    Except String (PyVal α) × Owner α × List (StoreCall β) :=
  let vo := p.value o
  let step :=
    if vo.1.isNull || p.fetchCond vo.2 then p.fetch st vo.2
    else (vo.1, vo.2, [])
  match step.1 with
  | LocalVal.null => (Except.error (p.key step.2.1), step.2.1, step.2.2)
  | LocalVal.py pv => (Except.ok pv, step.2.1, step.2.2)

/-- `Property.__set__`: store the value into the local cache unconditionally,
then commit when the autocommit guard holds. -/
def Property.setAccess {α β : Type} (p : Property α β) (st : Store β) (o : Owner α)
    (v : PyVal α) : Owner α × List (StoreCall β) :=
  let o₁ := p.set o (LocalVal.py v)
  if p.commitCond o₁ then
    let r := p.commit st o₁
    (r.2.1, r.2.2)
  else (o₁, [])

/-- The three-level policy fallback exactly as the spec words it: the
binding's own flag when explicitly set, otherwise the owner's same-named
flag, otherwise the built-in default. -/
def specPolicyResolve (binding owner : Option Bool) (dflt : Bool) : Bool :=
  match binding with
  | some b => b
  | none =>
      match owner with
      | some b => b
      | none => dflt

/-! Concrete fixtures used by witnesses and counterexamples.  Values are
`Nat`s and serialized bytes are `Nat`s, with a codec that round-trips. -/

/-- A concrete serializer: `None ↦ 0`, `obj n ↦ n + 1`. -/
def serN : PyVal Nat → Nat
  | PyVal.none => 0
  | PyVal.obj n => n + 1

/-- A concrete deserializer, inverse of `serN`. -/
def deserN : Nat → PyVal Nat
  | 0 => PyVal.none
  | n + 1 => PyVal.obj n

/-- A concrete binding named `score` with both policy flags unset. -/
def pW : Property Nat Nat :=
  ⟨"score", none, none, serN, deserN⟩

/-- A concrete binding named `score` with `autocommit = False`. -/
def pNoCommit : Property Nat Nat :=
  ⟨"score", some false, none, serN, deserN⟩

/-- A concrete owner with key `user:42`, no policy attributes, and a cached
object value `5`. -/
def oW : Owner Nat :=
  ⟨some "user:42", none, none, some (LocalVal.py (PyVal.obj 5))⟩

/-- A concrete owner with key `user:42` and no local cache slot yet. -/
def oEmpty : Owner Nat :=
  ⟨some "user:42", none, none, none⟩

/-- A concrete owner with a `None` key. -/
def oNoKey : Owner Nat :=
  ⟨none, none, none, some (LocalVal.py (PyVal.obj 5))⟩

/-- A concrete owner with `autocommit = True` set as an instance attribute. -/
def oAuto : Owner Nat :=
  ⟨some "user:42", some true, none, some (LocalVal.py (PyVal.obj 5))⟩

/-- A store whose every operation succeeds; `get` answers the byte `6`. -/
def stOk : Store Nat :=
  ⟨fun _ => some 6, fun _ _ => true, fun _ => true⟩

/-- A store on which every key is absent and every delete fails. -/
def stEmpty : Store Nat :=
  ⟨fun _ => none, fun _ _ => true, fun _ => false⟩

/-! Helper lemmas shared by the claim proofs. -/

theorem set_key_eq {α β : Type} (p : Property α β) (o : Owner α) (v : LocalVal α) :
    (p.set o v).key = o.key := rfl

theorem key_set_eq {α β : Type} (p : Property α β) (o : Owner α) (v : LocalVal α) :
    p.key (p.set o v) = p.key o := rfl

theorem fetchCond_set_eq {α β : Type} (p : Property α β) (o : Owner α) (v : LocalVal α) :
    p.fetchCond (p.set o v) = p.fetchCond o := rfl

theorem fetchCond_eq_spec {α β : Type} (p : Property α β) (o : Owner α) :
    p.fetchCond o = specPolicyResolve p.alwaysfetch o.alwaysfetch false := by
  rcases p with ⟨n, ac, af, s, d⟩
  rcases o with ⟨k, oac, oaf, sl⟩
  rcases af with _ | b
  · rcases oaf with _ | c <;> rfl
  · rcases b <;> rfl

theorem commitCond_eq_spec {α β : Type} (p : Property α β) (o : Owner α) :
    p.commitCond o = specPolicyResolve p.autocommit o.autocommit true := by
  rcases p with ⟨n, ac, af, s, d⟩
  rcases o with ⟨k, oac, oaf, sl⟩
  rcases ac with _ | b
  · rcases oac with _ | c <;> rfl
  · rcases b <;> rfl

theorem slot_set_eq {α β : Type} (p : Property α β) (o : Owner α) (v : LocalVal α) :
    (p.set o v).slot = some v := rfl

theorem value_set_eq {α β : Type} (p : Property α β) (o : Owner α) (v : LocalVal α) :
    p.value (p.set o v) = (v, p.set o v) := rfl

theorem set_set_eq {α β : Type} (p : Property α β) (o : Owner α) (v w : LocalVal α) :
    p.set (p.set o v) w = p.set o w := rfl

theorem alwaysfetch_set_eq {α β : Type} (p : Property α β) (o : Owner α) (v : LocalVal α) :
    (p.set o v).alwaysfetch = o.alwaysfetch := rfl

theorem commitCond_set_eq {α β : Type} (p : Property α β) (o : Owner α) (v : LocalVal α) :
    p.commitCond (p.set o v) = p.commitCond o := rfl

theorem value_slot_eq {α β : Type} (p : Property α β) (o : Owner α) :
    ((p.value o).2).slot = some (p.value o).1 := by
  cases h : o.slot <;> simp [Property.value, h, Property.set]

theorem key_value_eq {α β : Type} (p : Property α β) (o : Owner α) :
    p.key (p.value o).2 = p.key o := by
  cases h : o.slot <;> simp [Property.value, h, Property.set, Property.key]

theorem fetchCond_value_eq {α β : Type} (p : Property α β) (o : Owner α) :
    p.fetchCond (p.value o).2 = p.fetchCond o := by
  cases h : o.slot <;> simp [Property.value, h, Property.set, Property.fetchCond]

/-- C3: for a binding with non-empty name, `key(owner)` is exactly
`"{owner.key}:{name}"` when the owner's key is non-null and exactly `name`
when it is null; `key` is pure and depends only on the owner's `key`
attribute, so repeated calls with an unchanged owner key agree. -/
theorem key_composition {α β : Type} (p : Property α β) (h : p.name ≠ "") :
    (∀ (o : Owner α) (k : String), o.key = some k → p.key o = k ++ ":" ++ p.name) ∧
    (∀ o : Owner α, o.key = none → p.key o = p.name) ∧
    (∀ o o₂ : Owner α, o.key = o₂.key → p.key o = p.key o₂) := by
  refine ⟨?_, ?_, ?_⟩
  · intro o k hk
    simp [Property.key, hk]
  · intro o hk
    simp [Property.key, hk]
  · intro o o₂ hk
    simp [Property.key, hk]

/-- Witness for C3: with owner key `user:42` and name `score` the computed
key is `user:42:score`; with a null owner key it is `score`. -/
theorem key_composition_witness :
    pW.name ≠ "" ∧ pW.key oW = "user:42:score" ∧ pW.key oNoKey = "score" := by
  refine ⟨by decide, ?_, ?_⟩
  · exact ((key_composition pW (by decide)).1 oW "user:42" rfl).trans rfl
  · exact (key_composition pW (by decide)).2.1 oNoKey rfl

/-- C4: the inline guards of `__get__` and `__set__` resolve the policies by
the spec's three-level fallback (binding flag, else owner flag, else built-in
default `true` for autocommit and `false` for alwaysfetch); in particular a
binding-level `autocommit=False` overrides an owner-level `autocommit=True`. -/
theorem policy_resolution_matches_spec {α β : Type} (p : Property α β) (o : Owner α) :
    p.commitCond o = specPolicyResolve p.autocommit o.autocommit true ∧
    p.fetchCond o = specPolicyResolve p.alwaysfetch o.alwaysfetch false ∧
    Property.commitCond { p with autocommit := some false }
      { o with autocommit := some true } = false ∧
    specPolicyResolve none none true = true ∧
    specPolicyResolve none none false = false :=
  ⟨commitCond_eq_spec p o, fetchCond_eq_spec p o, rfl, rfl, rfl⟩

/-- Witness for C4 at a concrete binding and owner: binding `autocommit=False`
beats owner `autocommit=True`. -/
theorem policy_resolution_matches_spec_witness :
    Property.commitCond { pW with autocommit := some false }
      { oW with autocommit := some true } = false :=
  (policy_resolution_matches_spec pW oW).2.2.1

/-- C6: `commit` with a `Null` cached value issues no remote call and returns
success; with a non-`Null` cached value it issues exactly one remote `set` of
the serialized value on the computed key and returns the store's indication. -/
theorem commit_contract {α β : Type} (p : Property α β) (st : Store β) (o : Owner α) :
    ((p.value o).1 = LocalVal.null →
       p.commit st o = (true, (p.value o).2, [])) ∧
    (∀ pv : PyVal α, (p.value o).1 = LocalVal.py pv →
       p.commit st o = (st.setResp (p.key o) (p.serialize pv), (p.value o).2,
         [StoreCall.set (p.key o) (p.serialize pv)])) := by
  rcases h : o.slot with _ | v
  · refine ⟨fun _ => ?_, fun pv hpv => ?_⟩
    · simp [Property.commit, Property.value, h, Property.set, Property.key]
    · simp [Property.value, h] at hpv
  · refine ⟨fun hnull => ?_, fun pv hpv => ?_⟩
    · simp [Property.value, h] at hnull
      simp [Property.commit, Property.value, h, hnull]
    · simp [Property.value, h] at hpv
      simp [Property.commit, Property.value, h, hpv]

/-- Witness for C6: an owner with a fresh (absent) slot commits as a no-op
success; an owner caching the object `5` issues one `set` of its bytes. -/
theorem commit_contract_witness :
    pW.commit stOk oEmpty = (true, (pW.value oEmpty).2, []) ∧
    pW.commit stOk oW = (stOk.setResp (pW.key oW) (pW.serialize (PyVal.obj 5)),
      (pW.value oW).2, [StoreCall.set (pW.key oW) (pW.serialize (PyVal.obj 5))]) :=
  ⟨(commit_contract pW stOk oEmpty).1 rfl,
   (commit_contract pW stOk oW).2 (PyVal.obj 5) rfl⟩

/-- C7: when the store reports the delete unsuccessful, `delete` returns
failure and the owner — in particular its local cache slot — is exactly as
before the call. -/
theorem delete_failure_leaves_cache {α β : Type} (p : Property α β) (st : Store β)
    (o : Owner α) (h : st.delResp (p.key o) = false) :
    p.delete st o = (false, o, [StoreCall.del (p.key o)]) := by
  simp [Property.delete, h]

/-- Witness for C7: on a store whose deletes fail, the owner comes back
unchanged. -/
theorem delete_failure_leaves_cache_witness :
    stEmpty.delResp (pW.key oW) = false ∧
    pW.delete stEmpty oW = (false, oW, [StoreCall.del (pW.key oW)]) :=
  ⟨rfl, delete_failure_leaves_cache pW stEmpty oW rfl⟩

/-- C9: `value` is total; on an owner without local state it materializes
`Null` into the mangled slot and returns it, and a second call then returns
the same value with the owner unchanged; on an owner with local state it
returns that value with the owner unchanged.  It takes no store argument, so
it performs no remote call. -/
theorem value_lazy_init {α β : Type} (p : Property α β) (o : Owner α) :
    (o.slot = none →
       p.value o = (LocalVal.null, { o with slot := some LocalVal.null }) ∧
       p.value (p.value o).2 = (LocalVal.null, { o with slot := some LocalVal.null })) ∧
    (∀ v : LocalVal α, o.slot = some v → p.value o = (v, o)) := by
  rcases h : o.slot with _ | v
  · refine ⟨fun _ => ⟨?_, ?_⟩, fun v hv => by simp [h] at hv⟩
    · simp [Property.value, h, Property.set]
    · simp [Property.value, h, Property.set]
  · refine ⟨fun hnone => by simp [h] at hnone, fun w hw => ?_⟩
    simp [h] at hw
    simp [Property.value, h, hw]

/-- Witness for C9: the first call on a slotless owner materializes `Null`,
the second call is stable. -/
theorem value_lazy_init_witness :
    pW.value oEmpty = (LocalVal.null, { oEmpty with slot := some LocalVal.null }) ∧
    pW.value (pW.value oEmpty).2 = (LocalVal.null, { oEmpty with slot := some LocalVal.null }) :=
  (value_lazy_init pW oEmpty).1 rfl

/-- C10: after a store-confirmed delete the cache holds Python `None` (not
`Null`), so a following `commit` does not take the nothing-to-write branch:
it issues a remote `set` of the serialized `None` on the just-deleted key and
returns the store's result. -/
theorem delete_then_commit_writes_none {α β : Type} (p : Property α β) (st : Store β)
    (o : Owner α) (h : st.delResp (p.key o) = true) :
    (p.delete st o).1 = true ∧
    ((p.delete st o).2.1).slot = some (LocalVal.py PyVal.none) ∧
    p.commit st (p.delete st o).2.1 =
      (st.setResp (p.key o) (p.serialize PyVal.none), (p.delete st o).2.1,
       [StoreCall.set (p.key o) (p.serialize PyVal.none)]) := by
  simp [Property.delete, h, Property.commit, value_set_eq, key_set_eq, slot_set_eq]

/-- Witness for C10 on a store whose deletes and sets succeed. -/
theorem delete_then_commit_writes_none_witness :
    (pW.delete stOk oW).1 = true ∧
    ((pW.delete stOk oW).2.1).slot = some (LocalVal.py PyVal.none) ∧
    pW.commit stOk (pW.delete stOk oW).2.1 =
      (stOk.setResp (pW.key oW) (pW.serialize PyVal.none), (pW.delete stOk oW).2.1,
       [StoreCall.set (pW.key oW) (pW.serialize PyVal.none)]) :=
  delete_then_commit_writes_none pW stOk oW rfl

/-- C5: `fetch` issues exactly one remote `get` on the computed key; a
present response is deserialized into the cache, an absent one stores `Null`;
the cache is always overwritten with the returned value; and `fetch` is
idempotent: a second fetch against the unchanged store returns the same
value, owner state and calls. -/
theorem fetch_contract {α β : Type} (p : Property α β) (st : Store β) (o : Owner α) :
    (p.fetch st o).2.2 = [StoreCall.get (p.key o)] ∧
    (∀ b : β, st.getResp (p.key o) = some b →
       (p.fetch st o).1 = LocalVal.py (p.deserialize b)) ∧
    (st.getResp (p.key o) = none → (p.fetch st o).1 = LocalVal.null) ∧
    (p.fetch st o).2.1 = p.set o (p.fetch st o).1 ∧
    p.fetch st (p.fetch st o).2.1 = p.fetch st o := by
  cases hg : st.getResp (p.key o) <;>
    simp [Property.fetch, hg, key_set_eq, set_set_eq]

/-- Witness for C5: a present byte `6` deserializes to the object `5`; an
absent key stores `Null`. -/
theorem fetch_contract_witness :
    (pW.fetch stOk oW).1 = LocalVal.py (pW.deserialize 6) ∧
    (pW.fetch stEmpty oW).1 = LocalVal.null :=
  ⟨(fetch_contract pW stOk oW).2.1 6 rfl,
   (fetch_contract pW stEmpty oW).2.2.1 rfl⟩

/-- C8: write access stores the value into the local cache unconditionally
and issues the remote `set` of the serialized value exactly when the
autocommit policy, resolved by the spec's three-level fallback, is true. -/
theorem set_access_contract {α β : Type} (p : Property α β) (st : Store β) (o : Owner α)
    (v : PyVal α) :
    p.setAccess st o v =
      (p.set o (LocalVal.py v),
       if specPolicyResolve p.autocommit o.autocommit true then
         [StoreCall.set (p.key o) (p.serialize v)]
       else []) := by
  rw [← commitCond_eq_spec]
  cases hc : p.commitCond o <;>
    simp [Property.setAccess, Property.commit, commitCond_set_eq, value_set_eq,
          key_set_eq, hc]

/-- Witness for C8: a binding-level `autocommit=False` on an owner with
`autocommit=True` stores locally and issues no remote call. -/
theorem set_access_contract_witness :
    pNoCommit.setAccess stOk oAuto (PyVal.obj 7) =
      (pNoCommit.set oAuto (LocalVal.py (PyVal.obj 7)), []) :=
  set_access_contract pNoCommit stOk oAuto (PyVal.obj 7)

/-- C2: read access issues the fetch exactly when the local value is the
`Null` sentinel or the resolved alwaysfetch policy is true; it errors with
the computed key iff the value after any such fetch is still `Null`, and
otherwise returns exactly the value left in the local cache. -/
theorem get_access_contract {α β : Type} (p : Property α β) (st : Store β) (o : Owner α) :
    (p.getAccess st o).2.2 =
      (if (p.value o).1.isNull || specPolicyResolve p.alwaysfetch o.alwaysfetch false then
         [StoreCall.get (p.key o)]
       else []) ∧
    (∀ k : String, (p.getAccess st o).1 = Except.error k ↔
       k = p.key o ∧ ((p.getAccess st o).2.1).slot = some LocalVal.null) ∧
    (∀ v : PyVal α, (p.getAccess st o).1 = Except.ok v ↔
       ((p.getAccess st o).2.1).slot = some (LocalVal.py v)) := by
  rw [← fetchCond_eq_spec]
  rcases hv : (p.value o).1 with _ | pv
  · cases hg : st.getResp (p.key o) with
    | none =>
        simp [Property.getAccess, hv, LocalVal.isNull, Property.fetch, key_value_eq,
              fetchCond_value_eq, hg, slot_set_eq, key_set_eq, eq_comm]
    | some b =>
        simp [Property.getAccess, hv, LocalVal.isNull, Property.fetch, key_value_eq,
              fetchCond_value_eq, hg, slot_set_eq, key_set_eq, eq_comm]
  · cases hf : p.fetchCond o with
    | true =>
        cases hg : st.getResp (p.key o) with
        | none =>
            simp [Property.getAccess, hv, LocalVal.isNull, Property.fetch, key_value_eq,
                  fetchCond_value_eq, hf, hg, slot_set_eq, key_set_eq, eq_comm]
        | some b =>
            simp [Property.getAccess, hv, LocalVal.isNull, Property.fetch, key_value_eq,
                  fetchCond_value_eq, hf, hg, slot_set_eq, key_set_eq, eq_comm]
    | false =>
        simp [Property.getAccess, hv, LocalVal.isNull, fetchCond_value_eq, hf,
              value_slot_eq, eq_comm]

/-- Witness for C2: with an empty slot and an absent remote key, the read
errors with the computed key; with a cached object and no alwaysfetch, the
read returns the cached value. -/
theorem get_access_contract_witness :
    (pW.getAccess stEmpty oEmpty).1 = Except.error "user:42:score" ∧
    (pW.getAccess stOk oW).1 = Except.ok (PyVal.obj 5) :=
  ⟨((get_access_contract pW stEmpty oEmpty).2.1 "user:42:score").2 ⟨rfl, rfl⟩,
   ((get_access_contract pW stOk oW).2.2 (PyVal.obj 5)).2 rfl⟩

/-- Counterexample for C1 as stated: on a store whose delete succeeds, a
subsequent read access under the default alwaysfetch policy does NOT raise
KeyNotFound — it returns Python `None`, because the successful delete sets
the local cache to `None`, which is not the `Null` sentinel. -/
theorem delete_then_default_read_cex :
    (pW.delete stOk oW).1 = true ∧
    (pW.getAccess stOk (pW.delete stOk oW).2.1).1 = Except.ok PyVal.none :=
  ⟨rfl, rfl⟩

/-- C1 (amended): a store-confirmed delete returns success, and a subsequent
read access under the default alwaysfetch policy returns Python `None`
without raising; a delete the store reports unsuccessful returns failure and
leaves the owner, in particular its local cache, unchanged. -/
theorem delete_semantics_amended {α β : Type} (p : Property α β) (st : Store β) (o : Owner α) :
    (st.delResp (p.key o) = true → p.alwaysfetch = none → o.alwaysfetch = none →
       (p.delete st o).1 = true ∧
       (p.getAccess st (p.delete st o).2.1).1 = Except.ok PyVal.none) ∧
    (st.delResp (p.key o) = false →
       (p.delete st o).1 = false ∧ (p.delete st o).2.1 = o) := by
  constructor
  · intro hd hf ho
    refine ⟨by simp [Property.delete, hd], ?_⟩
    simp [Property.delete, hd, Property.getAccess, value_set_eq, LocalVal.isNull,
          Property.fetchCond, alwaysfetch_set_eq, hf, ho]
  · intro hd
    simp [Property.delete, hd]

/-- Witness for C1 (amended): both branches at concrete inputs — a store
whose deletes succeed and one whose deletes fail. -/
theorem delete_semantics_amended_witness :
    ((pW.delete stOk oW).1 = true ∧
     (pW.getAccess stOk (pW.delete stOk oW).2.1).1 = Except.ok PyVal.none) ∧
    ((pW.delete stEmpty oW).1 = false ∧ (pW.delete stEmpty oW).2.1 = oW) :=
  ⟨(delete_semantics_amended pW stOk oW).1 rfl rfl rfl,
   (delete_semantics_amended pW stEmpty oW).2 rfl⟩

end Trol
